import Mathlib

/-!
Verification of the LightWeightOrcha repository: a shallow embedding of
`src/disk_writer.py` (class `DiskInteractions`) and `src/orchestrator.py`
(class `LWOrchestrator`), with theorems settling the behavioural claims
about directory lifecycle, batch writes, deletes, channel routing,
constructor defaulting and the segment-run loop.

Modelling conventions:
* Python machine state touched by the code is made explicit: the local
  filesystem is a list of existing path strings, and the success of the
  underlying serializers (`json.dump`, `DataFrame.to_csv`, `joblib.dump`)
  is an oracle `DiskEnv`, since those libraries are external collaborators.
* Python exceptions become explicit `PyErr` values; a function that can
  raise returns `Except PyErr`, or records the error in its result.
* Python dicts become association lists with Python's update semantics:
  assigning to an existing key replaces its value in place, a new key is
  appended, preserving insertion order.
-/

set_option autoImplicit false

/-- Python exception kinds raised by the code under verification. -/
inductive PyErr where
  | valueError
  | attributeError (name : String)
  | keyError (key : String)
  | typeError
  | notImplementedError
deriving DecidableEq, Repr

/-- Python dict read `d.get(k)` / `d[k]` on an insertion-ordered dict. -/
def dict_get {B : Type} : List (String × B) → String → Option B
  | [], _ => none
  | (k', v) :: t, k => if k' = k then some v else dict_get t k

/-- Python dict assignment `d[k] = v`: replace in place if the key exists
(keeping its position), otherwise append the new key at the end. -/
def dict_set {B : Type} : List (String × B) → String → B → List (String × B)
  | [], k, v => [(k, v)]
  | (k', v') :: t, k, v =>
    if k' = k then (k, v) :: t else (k', v') :: dict_set t k v

/-- Python dict merge `\x7b**a, **b\x7d`: start from `a`, then assign every
entry of `b` in order (later key wins). -/
def dict_merge {B : Type} (a b : List (String × B)) : List (String × B) :=
  List.foldl (fun d kv => dict_set d kv.1 kv.2) a b

/-! ## Filesystem primitives

The local filesystem is the list of currently existing paths (files and
directories alike), each a plain path string as the Python code passes it
around.  `os.path.exists` is membership; `os.mkdir`, `os.makedirs` and
`os.remove` act on that list.  Operating-system faults (permissions etc.)
are outside the model: the claims under test are about the code's own
control flow, not about a faulting OS. -/

/-- Model of `os.path.exists`: the path is in the list of existing paths. -/
def os_exists : List String → String → Bool
  | [], _ => false
  | q :: fs, p => if q = p then true else os_exists fs p

/-- Model of `os.mkdir`: record the single new path as existing. -/
def os_mkdir (fs : List String) (p : String) : List String :=
  p :: fs

/-- Split a character list on a separator character. -/
def split_chars (c : Char) : List Char → List (List Char)
  | [] => [[]]
  | a :: rest =>
    let r := split_chars c rest
    if a = c then [] :: r
    else
      match r with
      | [] => [[a]]
      | h :: t => (a :: h) :: t

/-- Components of a path string, split at the slash separator. -/
def path_components (s : String) : List String :=
  (split_chars '/' s.toList).map List.asString

/-- All nonempty component sequences leading up to a component list. -/
def levels_of : List String → List (List String)
  | [] => []
  | c :: rest => [c] :: (levels_of rest).map (fun l => c :: l)

/-- Every intermediate level of a path: for `a/b/c` the paths `a`, `a/b`
and `a/b/c`. -/
def path_levels (p : String) : List String :=
  (levels_of (path_components p)).map (fun l => String.intercalate "/" l)

/-- Model of `os.makedirs`: every missing intermediate level of the path
comes into existence together with the full path. -/
def os_makedirs (fs : List String) (p : String) : List String :=
  path_levels p ++ fs

/-- Model of `os.remove`: the path no longer exists. -/
def os_remove (fs : List String) (p : String) : List String :=
  fs.filter (fun q => decide (q ≠ p))

/-- Model of `os.path.basename`: the part after the last slash. -/
def basename (s : String) : String :=
  (path_components s).getLastD ""

/-- Model of `os.path.split`: directory part and final component. -/
def os_path_split (s : String) : String × String :=
  (String.intercalate "/" (path_components s).dropLast,
   (path_components s).getLastD "")

/-- Index of the last occurrence of a character, counting from `i`. -/
def last_index_aux (c : Char) : List Char → Nat → Option Nat
  | [], _ => none
  | a :: rest, i =>
    match last_index_aux c rest (i + 1) with
    | some j => some j
    | none => if a = c then some i else none

/-- Index of the last occurrence of a character in a character list. -/
def last_index_of (c : Char) (cs : List Char) : Option Nat :=
  last_index_aux c cs 0

/-- Model of `os.path.splitext`: split at the last dot of the final path
component, unless that component has no non-dot character before it
(Python's rule keeping dotfiles like `.cshrc` whole). -/
def os_splitext (s : String) : String × String :=
  let cs := s.toList
  match last_index_of '.' cs with
  | none => (s, "")
  | some dot =>
    let start : Nat :=
      match last_index_of '/' cs with
      | none => 0
      | some sep => sep + 1
    if dot < start then (s, "")
    else if (List.range cs.length).any
        (fun j => decide (start ≤ j) && decide (j < dot)
          && decide (cs.getD j ' ' ≠ '.')) then
      ((cs.take dot).asString, (cs.drop dot).asString)
    else (s, "")

/-! ## DiskInteractions: directory lifecycle -/

/-- Embedding of `DiskInteractions.create_directory` (disk_writer.py
lines 54-73): create the directory when the path does not yet exist and
return `true`; when it already exists, log and return `false`. -/
def create_directory (fs : List String) (p : String) : List String × Bool :=
  if !(os_exists fs p) then (os_mkdir fs p, true)
  else (fs, false)

/-- Embedding of `DiskInteractions.create_multilevel_directories`
(disk_writer.py lines 75-93): when the path does not exist, create every
missing level and return `true`; the already-exists branch only prints and
falls off the end of the function, so Python returns `None` — modelled as
`none`, distinct from `some false`. -/
def create_multilevel_directories (fs : List String) (p : String) :
    List String × Option Bool :=
  if !(os_exists fs p) then (os_makedirs fs p, some true)
  else (fs, none)

/-! ## DiskInteractions: writing files

`_write_json_data`, `_write_csv_data` and `_write_obj_data` call out to
`json.dump`, `DataFrame.to_csv` and `joblib.dump`, which the spec treats
as external collaborators; whether each such call succeeds or raises is an
oracle carried in `DiskEnv`, together with the `datetime.utcnow` reading
used for timestamped file names.  The payload type is a parameter `A`. -/

/-- Oracle for the external effects of `DiskInteractions` writes: for each
upload file name and payload, whether the json / csv / object serializer
raises, plus the formatted UTC timestamp `datetime.utcnow().strftime(...)`
observed during the call. -/
structure DiskEnv (A : Type) where
  json_ok : String → A → Bool
  csv_ok : String → A → Bool
  obj_ok : String → A → Bool
  now : String

/-- Serializer selected by `DiskInteractions._write_fun_from_file_extension`
(disk_writer.py lines 163-176). -/
inductive WriteKind where
  | json
  | csv
  | obj
deriving DecidableEq, Repr

/-- Embedding of the dispatch rule of `_write_fun_from_file_extension`:
`.json` suffix to the json writer, `.csv` suffix to the csv writer, and
anything else to the joblib object serializer. -/
def write_fun_from_file_extension (file_name : String) : WriteKind :=
  if file_name.endsWith ".json" then WriteKind.json
  else if file_name.endsWith ".csv" then WriteKind.csv
  else WriteKind.obj

/-- Success of the selected underlying serializer on a given file name and
payload, read off the oracle. -/
def writer_ok {A : Type} (env : DiskEnv A) (k : WriteKind) (file_name : String)
    (data_out : A) : Bool :=
  match k with
  | WriteKind.json => env.json_ok file_name data_out
  | WriteKind.csv => env.csv_ok file_name data_out
  | WriteKind.obj => env.obj_ok file_name data_out

/-- Embedding of `DiskInteractions._write_file` (disk_writer.py lines
178-190): dispatch by extension inside a try block; any exception from the
underlying writer is caught and becomes `false`, success becomes `true`. -/
def write_file_inner {A : Type} (env : DiskEnv A) (file_name : String)
    (data_out : A) : Bool :=
  writer_ok env (write_fun_from_file_extension file_name) file_name data_out

/-- Embedding of `DiskInteractions._ret_result_or_bool` (disk_writer.py
lines 114-130). -/
def ret_result_or_bool (ret_result result_when_true result_when_false : Bool) :
    Bool :=
  if ret_result then result_when_true else result_when_false

/-- Embedding of `DiskInteractions._set_upload_file_name` (disk_writer.py
lines 19-28): split at the final extension and insert the UTC timestamp
before it. -/
def set_upload_file_name (now : String) (file_name : String) : String :=
  (os_splitext file_name).1 ++ "_" ++ now ++ (os_splitext file_name).2

/-- Embedding of `DiskInteractions.write_file_to_disk` (disk_writer.py
lines 192-222): optionally rewrite the name with a timestamp, attempt the
write, then return the outcome through `_ret_result_or_bool` on both
branches. -/
def write_file_to_disk {A : Type} (env : DiskEnv A) (data_out : A)
    (file_name : String) (include_datetime ret_result : Bool) : Bool :=
  let upload_file_name :=
    if include_datetime then set_upload_file_name env.now file_name
    else file_name
  let result := write_file_inner env upload_file_name data_out
  if result then ret_result_or_bool ret_result result true
  else ret_result_or_bool ret_result result false

/-- Embedding of `DiskInteractions.write_files_to_disk` (disk_writer.py
lines 224-249): one `write_file_to_disk` call per entry in input order,
recording each outcome in a dict keyed by `os.path.basename` of the
destination. -/
def write_files_to_disk {A : Type} (env : DiskEnv A)
    (file_name_to_data_out_list : List (String × A))
    (include_datetime ret_result : Bool) : List (String × Bool) :=
  List.foldl
    (fun return_data file_data =>
      dict_set return_data (basename file_data.1)
        (write_file_to_disk env file_data.2 file_data.1
          include_datetime ret_result))
    [] file_name_to_data_out_list

/-- Last entry of a batch whose destination's base name is `b`, in input
order; the entry whose write outcome a Python dict keyed by base names
ends up holding. -/
def last_matching {A : Type} (b : String) : List (String × A) → Option (String × A)
  | [] => none
  | e :: es =>
    match last_matching b es with
    | some e' => some e'
    | none => if basename e.1 = b then some e else none

/-! ## DiskInteractions: deleting files -/

/-- Embedding of `DiskInteractions._delete_file` (disk_writer.py lines
347-360): remove the file only if it exists, and return `true` on both
branches — a missing file is not an error. -/
def delete_file_inner (fs : List String) (file_name : String) :
    List String × Bool :=
  if os_exists fs file_name then (os_remove fs file_name, true)
  else (fs, true)

/-- Embedding of `DiskInteractions.delete_file_from_disk` (disk_writer.py
lines 362-379): delegate to `_delete_file`, then pass the outcome through
`_ret_result_or_bool` on both branches. -/
def delete_file_from_disk (fs : List String) (file_name : String)
    (ret_result : Bool) : List String × Bool :=
  let r := delete_file_inner fs file_name
  if r.2 then (r.1, ret_result_or_bool ret_result r.2 true)
  else (r.1, ret_result_or_bool ret_result r.2 false)

/-! ## LWOrchestrator

Per-process return values have the parameter type `V`.  The process
modules themselves are external collaborators: `run_process` resolves
`self.module_mapping[process]`, constructs the handler from
`constructor_options` and reflects on `run_command` / `run_options`;
the value that construction-plus-invocation produces is carried as the
`run_result` oracle field of the process dict, while the mapping lookup
that can raise is modelled on the list of registered identifiers. -/

/-- Process dict consumed by `LWOrchestrator.run_process` (orchestrator.py
lines 104-129): the `process` identifier used for the mapping lookup and
the result wrapping, with the externally produced run value as an oracle
field standing for constructing the handler and calling its run command. -/
structure ProcessDict (V : Type) where
  process : String
  run_result : V
deriving DecidableEq, Repr

/-- Embedding of `LWOrchestrator.run_process`: look the identifier up in
`module_mapping` (a missing key raises `KeyError`), run the handler, and
wrap the return value in a singleton dict keyed by the process identifier. -/
def run_process {V : Type} (module_mapping : List String) (pd : ProcessDict V) :
    Except PyErr (List (String × V)) :=
  if pd.process ∈ module_mapping then Except.ok [(pd.process, pd.run_result)]
  else Except.error (PyErr.keyError pd.process)

/-- Embedding of `LWOrchestrator.append_to_results` (orchestrator.py lines
131-141): the Python dict merge `\x7b**base_dict, **append_dict\x7d`,
returning the combined dict. -/
def append_to_results {V : Type} (base_dict append_dict : List (String × V)) :
    List (String × V) :=
  dict_merge base_dict append_dict

/-- Constructor arguments of `LWOrchestrator.__init__` (orchestrator.py
lines 12-20).  A `none` models a Python `None` argument; an omitted
argument is the Python default, `python_default_args` below. -/
structure InitArgs (V : Type) where
  module_mapping : Option (List String)
  batch_id : Option String
  segment_list : Option (List String)
  run_config : Option (List (String × ProcessDict V))
  results_channel : Option String
  id_val : Option String
deriving DecidableEq, Repr

/-- The default argument values of `LWOrchestrator.__init__`:
`batch_id="batch_1"`, `results_channel="blob_storage"`, everything else
`None`.  An argument the caller does not supply takes these values. -/
def python_default_args (V : Type) : InitArgs V :=
  ⟨none, some "batch_1", none, none, some "blob_storage", none⟩

/-- Instance state after `LWOrchestrator.__init__`.  The trailing three
fields are attributes that `run_segment` and
`_upload_file_to_output_channel` read but that `__init__` never assigns;
`none` models the attribute being absent from the instance, so reading it
raises `AttributeError`.  The `interactor` attribute, when present, is the
`DiskInteractions`-style object the upload delegates to; only its presence
matters here, the delegated call being recorded in the result. -/
structure LWState (V : Type) where
  segment_list : List String
  id_val : Option String
  module_mapping : Option (List String)
  module_config : Option Unit
  container : Option String
  base_path : String
  results_channel : String
  batch_id : String
  module_id_list : Option (List String)
  run_config : Option (List (String × ProcessDict V))
  interactor : Option Unit
deriving DecidableEq, Repr

/-- Rendering of an optional string inside a Python f-string: `None`
renders as the text `"None"`. -/
def py_fstr : Option String → String
  | none => "None"
  | some s => s

/-- Embedding of the static method `LWOrchestrator.set_batch_id`
(orchestrator.py lines 39-47): return `str(uuid.uuid4())`, the single
fresh random UUID string drawn during the call, supplied as a parameter. -/
def set_batch_id (fresh_uuid : String) : String :=
  fresh_uuid

/-- Embedding of `LWOrchestrator.__init__` (orchestrator.py lines 12-37):
raise `ValueError` when `segment_list` is `None`; otherwise store the
arguments, read the storage container from the environment, build
`base_path` from the `batch_id` argument (an explicit `None` is rendered
as the text `"None"` by the f-string), default `results_channel` to
`"disk"` only when the argument is `None`, and set `batch_id` to a fresh
UUID only when the argument is `None`.  The attributes `module_id_list`,
`run_config` and `interactor` are never assigned. -/
def lw_init {V : Type} (fresh_uuid : String) (container : Option String)
    (a : InitArgs V) : Except PyErr (LWState V) :=
  match a.segment_list with
  | none => Except.error PyErr.valueError
  | some sl =>
    Except.ok
      ⟨sl, a.id_val, a.module_mapping, none, container,
       "forecast/" ++ py_fstr a.batch_id ++ "/segment_results",
       (match a.results_channel with
        | none => "disk"
        | some c => c),
       (match a.batch_id with
        | none => set_batch_id fresh_uuid
        | some b => b),
       none, none, none⟩

/-- Call recorded when `_upload_file_to_output_channel` delegates to a
backend: a disk write with the payload and the exact path, or a blob write
with the path split into key and file name. -/
inductive UploadCall (V : Type) where
  | disk (data_out : List (String × V)) (file_name : String)
  | blob (data_out : List (String × V)) (key : String) (name : String)
deriving DecidableEq, Repr

/-- Embedding of `LWOrchestrator._upload_file_to_output_channel`
(orchestrator.py lines 49-67): channel `"disk"` delegates to
`self.interactor.write_file_to_disk` with the exact file name (reading the
never-assigned `interactor` attribute raises `AttributeError` when it is
absent); channel `"azure_blob"` splits the path and delegates to the blob
writer; any other channel logs critically and raises
`NotImplementedError`. -/
def upload_file_to_output_channel {V : Type} (st : LWState V)
    (data_out : List (String × V)) (file_name : String) :
    Except PyErr (UploadCall V) :=
  if st.results_channel = "disk" then
    match st.interactor with
    | none => Except.error (PyErr.attributeError "interactor")
    | some _ => Except.ok (UploadCall.disk data_out file_name)
  else if st.results_channel = "azure_blob" then
    match st.interactor with
    | none => Except.error (PyErr.attributeError "interactor")
    | some _ =>
      Except.ok
        (UploadCall.blob data_out (os_path_split file_name).1
          (os_path_split file_name).2)
  else Except.error PyErr.notImplementedError

/-- Embedding of `LWOrchestrator.write_output` (orchestrator.py lines
69-83): build the destination from `base_path` and the joined segment
identifiers suffixed `_results.json`, and route it through
`_upload_file_to_output_channel`. -/
def write_output {V : Type} (st : LWState V) (data : List (String × V))
    (seg : List String) : Except PyErr (UploadCall V) :=
  upload_file_to_output_channel st data
    (st.base_path ++ "/" ++ String.intercalate "_" seg ++ "_results.json")

/-- The loop of `LWOrchestrator.run_segment` (orchestrator.py lines
148-152), over the remaining process identifiers with the current
`results` dict and the trace of processes invoked so far.  Each iteration
reads `self.run_config` (raising `AttributeError` when absent), indexes it
(raising `KeyError` on a missing key), reads `self.module_mapping`
(subscripting `None` raises `TypeError`), calls `run_process`, and — when
the returned dict is truthy — calls `append_to_results` WITHOUT using its
return value, exactly as the source does: `results` is never updated. -/
def run_segment_loop {V : Type} (st : LWState V) :
    List String → List (String × V) → List String →
    Option PyErr × List (String × V) × List String
  | [], results, invoked => (none, results, invoked)
  | process :: rest, results, invoked =>
    match st.run_config with
    | none => (some (PyErr.attributeError "run_config"), results, invoked)
    | some rc =>
      match dict_get rc process with
      | none => (some (PyErr.keyError process), results, invoked)
      | some pd =>
        match st.module_mapping with
        | none => (some PyErr.typeError, results, invoked)
        | some mm =>
          match run_process mm pd with
          | Except.error e => (some e, results, invoked)
          | Except.ok result =>
            if result.isEmpty then
              run_segment_loop st rest results (invoked ++ [process])
            else
              let _discarded := append_to_results results result
              run_segment_loop st rest results (invoked ++ [process])

/-- Embedding of `LWOrchestrator.run_segment` (orchestrator.py lines
143-155): iterate `self.module_id_list` (reading the never-assigned
attribute raises `AttributeError` before anything else happens), run the
loop, apply the `run_queue` retry check (`retry_msg` only logs; the value
it would receive is reported), and write the accumulated results through
`write_output`.  The result is the raised error if any, the trace of
invoked processes, the value passed to `retry_msg` if any, and the
recorded output write. -/
def run_segment {V : Type} (st : LWState V) :
    Option PyErr × List String × Option V × Option (UploadCall V) :=
  match st.module_id_list with
  | none => (some (PyErr.attributeError "module_id_list"), [], none, none)
  | some ids =>
    match run_segment_loop st ids [] [] with
    | (some e, _, invoked) => (some e, invoked, none, none)
    | (none, results, invoked) =>
      let retried := dict_get results "run_queue"
      match write_output st results st.segment_list with
      | Except.error e => (some e, invoked, retried, none)
      | Except.ok call => (none, invoked, retried, some call)

/-! ## Specification-side predicate and concrete instances -/

/-- Lowercase hexadecimal digit, the alphabet of `str(uuid.uuid4())`. -/
def is_uuid_hex_char (c : Char) : Bool :=
  ("0123456789abcdef".toList).contains c

/-- Modelled from the spec: a "valid UUID-formatted string" — the
canonical 8-4-4-4-12 text form produced by `str(uuid.uuid4())`: 36
characters, hyphens at positions 8, 13, 18 and 23, lowercase hexadecimal
digits everywhere else. -/
def uuid_formatted (s : String) : Bool :=
  let cs := s.toList
  (cs.length == 36) &&
    (List.range 36).all (fun i =>
      if i == 8 || i == 13 || i == 18 || i == 23 then cs.getD i ' ' == '-'
      else is_uuid_hex_char (cs.getD i ' '))

/-- A sample value for the fresh `str(uuid.uuid4())` drawn at
construction. -/
def uuid_sample : String :=
  "123e4567-e89b-42d3-a456-426614174000"

/-- Arguments of the construction `LWOrchestrator(segment_list=["segment"])`:
only `segment_list` is supplied, every other argument keeps its Python
default — in particular `batch_id` stays `"batch_1"` and `results_channel`
stays `"blob_storage"`. -/
def args_main : InitArgs Nat :=
  ⟨none, some "batch_1", some ["segment"], none, some "blob_storage", none⟩

/-- The instance state `lw_init` produces from `args_main`. -/
def st_main : LWState Nat :=
  ⟨["segment"], none, none, none, none,
   "forecast/batch_1/segment_results", "blob_storage", "batch_1",
   none, none, none⟩

/-- Arguments with `batch_id` explicitly passed as `None` and
`segment_list` supplied. -/
def args_none_batch : InitArgs Nat :=
  ⟨none, none, some ["segment"], none, some "blob_storage", none⟩

/-- The instance state `lw_init` produces from `args_none_batch` with the
fresh UUID `uuid_sample`. -/
def st_none_batch : LWState Nat :=
  ⟨["segment"], none, none, none, none,
   "forecast/None/segment_results", "blob_storage", uuid_sample,
   none, none, none⟩

/-- Arguments with `results_channel` explicitly passed as `None` and
`segment_list` supplied. -/
def args_none_channel : InitArgs Nat :=
  ⟨none, some "batch_1", some ["segment"], none, none, none⟩

/-- The instance state `lw_init` produces from `args_none_channel`. -/
def st_none_channel : LWState Nat :=
  ⟨["segment"], none, none, none, none,
   "forecast/batch_1/segment_results", "disk", "batch_1",
   none, none, none⟩

/-- An orchestrator state routed to the `"disk"` channel with an
interactor attached. -/
def st_disk : LWState Nat :=
  ⟨["segment"], none, none, none, none,
   "forecast/batch_1/segment_results", "disk", "batch_1",
   none, none, some ()⟩

/-- An orchestrator state whose channel is the unrecognized value
`"unknown"`. -/
def st_unknown : LWState Nat :=
  ⟨["segment"], none, none, none, none,
   "forecast/batch_1/segment_results", "unknown", "batch_1",
   none, none, none⟩

/-- The aggregation-order scenario of the spec, installed on an instance:
`module_id_list` is `["A", "B"]`, the run config maps `A` to a process
whose run returns the dict `\x7b"k": 1\x7d` and `B` to one returning
`\x7b"k": 2\x7d`, both registered in `module_mapping`; the channel is
`"disk"` with an interactor attached so the output write can be
observed. -/
def st_c1 : LWState (List (String × Nat)) :=
  ⟨["segment"], none, some ["A", "B"], none, none,
   "forecast/test_1/segment_results", "disk", "test_1",
   some ["A", "B"],
   some [("A", ⟨"A", [("k", 1)]⟩), ("B", ⟨"B", [("k", 2)]⟩)],
   some ()⟩

/-! ## Helper lemmas -/

/-- A path among the freshly created levels exists afterwards. -/
theorem os_exists_of_mem (l fs : List String) (q : String) (h : q ∈ l) :
    os_exists (l ++ fs) q = true := by
  induction l with
  | nil => cases h
  | cons a t ih =>
    simp only [List.cons_append, os_exists]
    by_cases hq : a = q
    · simp [hq]
    · rcases List.mem_cons.mp h with h1 | h1
      · exact absurd h1.symm hq
      · simp [hq, ih h1]

/-- Reading a Python dict after an assignment: the assigned key now holds
the new value, every other key is unchanged. -/
theorem dict_get_dict_set {B : Type} (d : List (String × B)) (k' k : String)
    (v : B) :
    dict_get (dict_set d k' v) k = if k' = k then some v else dict_get d k := by
  induction d with
  | nil => by_cases h : k' = k <;> simp [dict_set, dict_get, h]
  | cons e t ih =>
    obtain ⟨a, b⟩ := e
    by_cases h1 : a = k' <;> by_cases h2 : k' = k <;> by_cases h3 : a = k <;>
      simp_all [dict_set, dict_get]

/-- Unrolling the batch-write fold: looking a base name up in the final
dict finds the write outcome of the last entry carrying that base name,
else whatever the accumulator held. -/
theorem write_files_fold_get {A : Type} (env : DiskEnv A) (dt rr : Bool)
    (b : String) (l : List (String × A)) (d : List (String × Bool)) :
    dict_get
      (List.foldl
        (fun return_data file_data =>
          dict_set return_data (basename file_data.1)
            (write_file_to_disk env file_data.2 file_data.1 dt rr))
        d l) b =
      (match last_matching b l with
       | some e => some (write_file_to_disk env e.2 e.1 dt rr)
       | none => dict_get d b) := by
  induction l generalizing d with
  | nil => simp [last_matching]
  | cons e t ih =>
    simp only [List.foldl_cons, last_matching]
    rw [ih]
    cases h : last_matching b t with
    | some e' => simp
    | none =>
      by_cases hb : basename e.1 = b <;> simp [hb, dict_get_dict_set]

/-- Shape of every successfully constructed instance: `segment_list` was
non-`None`, the stored fields are as `__init__` assigns them, and the
attributes `module_id_list`, `run_config`, `interactor` are absent. -/
theorem lw_init_ok_elim {V : Type} (u : String) (c : Option String)
    (a : InitArgs V) (st : LWState V) (h : lw_init u c a = Except.ok st) :
    ∃ sl, a.segment_list = some sl ∧
      st = ⟨sl, a.id_val, a.module_mapping, none, c,
            "forecast/" ++ py_fstr a.batch_id ++ "/segment_results",
            (match a.results_channel with
             | none => "disk"
             | some ch => ch),
            (match a.batch_id with
             | none => set_batch_id u
             | some bid => bid),
            none, none, none⟩ := by
  unfold lw_init at h
  cases ha : a.segment_list with
  | none => rw [ha] at h; exact Except.noConfusion h
  | some sl =>
    rw [ha] at h
    exact ⟨sl, rfl, (Except.ok.inj h).symm⟩

/-! ## Claim theorems -/

/-- Claim C6, counterexample: `create_multilevel_directories` called on a
path that already exists does not return the boolean `false` — the
already-exists branch of the source has no return statement, so the call
returns Python's `None`. -/
theorem c6_counterexample_existing_returns_none :
    (create_multilevel_directories ["d"] "d").2 = none ∧
      (create_multilevel_directories ["d"] "d").2 ≠ some false := by
  decide

/-- Claim C6, amended: `createDirRecursive` on a path that already exists
returns `None` (an implicit, non-boolean falsy value) and raises no
exception, leaving the filesystem unchanged; on a path that does not
exist it creates all missing intermediate levels and returns `true`. -/
theorem c6_amended_recursive_create (fs : List String) (p : String) :
    (os_exists fs p = true → create_multilevel_directories fs p = (fs, none)) ∧
    (os_exists fs p = false →
      (create_multilevel_directories fs p).2 = some true ∧
      ∀ q ∈ path_levels p,
        os_exists (create_multilevel_directories fs p).1 q = true) := by
  constructor
  · intro h
    simp [create_multilevel_directories, h]
  · intro h
    refine ⟨by simp [create_multilevel_directories, h], ?_⟩
    intro q hq
    simp only [create_multilevel_directories, h, Bool.not_false, if_pos]
    exact os_exists_of_mem (path_levels p) fs q hq

/-- Witness for the amended claim C6 at a concrete input: creating
`a/b` on an empty filesystem returns `true` and both levels `a` and
`a/b` exist afterwards. -/
theorem c6_amended_witness :
    (create_multilevel_directories [] "a/b").2 = some true ∧
      os_exists (create_multilevel_directories [] "a/b").1 "a" = true ∧
      os_exists (create_multilevel_directories [] "a/b").1 "a/b" = true := by
  have h := (c6_amended_recursive_create [] "a/b").2 (by decide)
  exact ⟨h.1, h.2 "a" (by decide), h.2 "a/b" (by decide)⟩

/-- Claim C9: `create_directory` is not idempotent — on a path that does
not exist it creates the directory and returns `true`; on a path that
already exists it returns `false` without raising; hence two consecutive
calls on a fresh path return `true` then `false`. -/
theorem c9_create_directory_not_idempotent (fs : List String) (p : String) :
    (os_exists fs p = false →
      (create_directory fs p).2 = true ∧
      (create_directory (create_directory fs p).1 p).2 = false) ∧
    (os_exists fs p = true → create_directory fs p = (fs, false)) := by
  constructor
  · intro h
    constructor
    · simp [create_directory, h]
    · simp [create_directory, h, os_mkdir, os_exists]
  · intro h
    simp [create_directory, h]

/-- Witness for claim C9 at a concrete input: creating `d` twice on an
empty filesystem returns `true` then `false`. -/
theorem c9_witness :
    (create_directory [] "d").2 = true ∧
      (create_directory (create_directory [] "d").1 "d").2 = false :=
  (c9_create_directory_not_idempotent [] "d").1 (by decide)

/-- Claim C8: `delete_file_from_disk` on a path where no file exists
returns `true` and leaves the filesystem unchanged — absence is success —
and deleting the same name twice returns `true` both times, for every
value of the `ret_result` flag. -/
theorem c8_delete_idempotent (fs : List String) (p : String) (r : Bool) :
    (os_exists fs p = false → delete_file_from_disk fs p r = (fs, true)) ∧
    ((delete_file_from_disk fs p r).2 = true ∧
      (delete_file_from_disk (delete_file_from_disk fs p r).1 p r).2 = true) := by
  have always : ∀ fs' : List String, (delete_file_from_disk fs' p r).2 = true := by
    intro fs'
    by_cases h : os_exists fs' p = true <;> cases r <;>
      simp [delete_file_from_disk, delete_file_inner, ret_result_or_bool, h]
  refine ⟨?_, always fs, always _⟩
  intro h
  cases r <;>
    simp [delete_file_from_disk, delete_file_inner, ret_result_or_bool, h]

/-- Witness for claim C8 at a concrete input: deleting the absent file
`f` returns `true`, twice in a row. -/
theorem c8_witness :
    delete_file_from_disk [] "f" false = ([], true) ∧
      (delete_file_from_disk (delete_file_from_disk [] "f" false).1 "f" false).2
        = true :=
  ⟨(c8_delete_idempotent [] "f" false).1 (by decide),
   (c8_delete_idempotent [] "f" false).2.2⟩

/-- Claim C7: `write_files_to_disk` invokes `write_file_to_disk` once per
entry in input order and returns a dict keyed by the base name of each
destination (not the full path); looking any base name up finds exactly
the write outcome of the last entry in input order carrying that base
name, so a duplicate base name silently overwrites the earlier entry
while every entry's own write is still attempted and recorded — one
entry's failure never suppresses another's outcome. -/
theorem c7_write_batch_basename_last_wins (A : Type) (env : DiskEnv A)
    (entries : List (String × A)) (dt rr : Bool) (b : String) :
    dict_get (write_files_to_disk env entries dt rr) b =
      (last_matching b entries).map
        (fun e => write_file_to_disk env e.2 e.1 dt rr) := by
  unfold write_files_to_disk
  rw [write_files_fold_get]
  cases last_matching b entries <;> simp [dict_get]

/-- Claim C10: the boolean `write_file_to_disk` returns equals the success
of the underlying serialization and I/O step on the (possibly
timestamped) upload name, for every payload, destination and value of the
`ret_result` flag; a failing underlying write yields `false`, a
succeeding one `true`, and no underlying error propagates. -/
theorem c10_write_returns_underlying_success (A : Type) (env : DiskEnv A)
    (data_out : A) (file_name : String) (include_datetime ret_result : Bool) :
    write_file_to_disk env data_out file_name include_datetime ret_result =
      write_file_inner env
        (if include_datetime then set_upload_file_name env.now file_name
         else file_name) data_out := by
  unfold write_file_to_disk
  cases h : write_file_inner env
      (if include_datetime then set_upload_file_name env.now file_name
       else file_name) data_out <;>
    cases ret_result <;> simp [ret_result_or_bool, h]

/-- Claim C1 (code bug exhibited): on the spec's aggregation scenario —
segment processes `A` and `B` whose runs return the dicts with `k = 1`
and `k = 2` — `run_segment` invokes both processes in list order but
passes the EMPTY dict to the output write: line 152 of orchestrator.py
discards the return value of `append_to_results`, so nothing is ever
merged into the accumulating ResultSet, while applying the documented
merge itself would have produced a nonempty dict. -/
theorem c1_run_segment_discards_results :
    run_segment st_c1 =
      (none, ["A", "B"], none,
        some (UploadCall.disk []
          "forecast/test_1/segment_results/segment_results.json")) ∧
    append_to_results
        (append_to_results [] [("A", [("k", 1)])]) [("B", [("k", 2)])] ≠
      ([] : List (String × List (String × Nat))) := by
  constructor
  · rfl
  · decide

/-- Claim C2: every successfully constructed `LWOrchestrator` instance —
whatever argument values the constructor accepted — raises
`AttributeError` in `run_segment` before any process is invoked, because
`__init__` never assigns the `module_id_list` attribute the loop reads
first (nor `run_config`): no process is invoked, nothing is retried,
nothing is written. -/
theorem c2_run_segment_attribute_error (V : Type) (u : String)
    (c : Option String) (a : InitArgs V) (st : LWState V)
    (hok : lw_init u c a = Except.ok st) :
    run_segment st = (some (PyErr.attributeError "module_id_list"), [], none, none) := by
  obtain ⟨sl, hsl, hst⟩ := lw_init_ok_elim u c a st hok
  subst hst
  rfl

/-- Witness for claim C2 at a concrete input: the constructed instance
`LWOrchestrator(segment_list=["segment"])` raises `AttributeError` on
`module_id_list` with no process invoked and no output written. -/
theorem c2_witness :
    run_segment st_main =
      (some (PyErr.attributeError "module_id_list"), [], none, none) :=
  c2_run_segment_attribute_error Nat uuid_sample none args_main st_main rfl

/-- Claim C3, counterexample: constructing without supplying a batch
identifier — so the parameter keeps its Python default — yields the
literal `"batch_1"`, not a freshly generated UUID and not a valid
UUID-formatted string, even though a fresh UUID was available. -/
theorem c3_counterexample_default_batch_id :
    (lw_init uuid_sample none args_main).map (fun st => st.batch_id) =
      Except.ok "batch_1" ∧
    uuid_formatted "batch_1" = false ∧ "batch_1" ≠ uuid_sample := by
  refine ⟨rfl, by decide, by decide⟩

/-- Claim C3, amended: only when the batch identifier argument is
explicitly passed as `None` does the orchestrator draw a fresh random
UUID, once at construction time; the stored batch identifier then equals
that single UUID string — hence valid UUID-formatted, non-empty, and
stable across repeated reads of the instance — whereas an omitted
argument takes the Python default `"batch_1"`. -/
theorem c3_amended_explicit_none_batch_id (V : Type) (u : String)
    (c : Option String) (a : InitArgs V) (st : LWState V)
    (hbid : a.batch_id = none) (hu : uuid_formatted u = true)
    (hok : lw_init u c a = Except.ok st) :
    st.batch_id = set_batch_id u ∧ uuid_formatted st.batch_id = true ∧
      st.batch_id ≠ "" := by
  obtain ⟨sl, hsl, hst⟩ := lw_init_ok_elim u c a st hok
  have hb : st.batch_id = set_batch_id u := by
    subst hst
    dsimp only
    rw [hbid]
  refine ⟨hb, by rw [hb]; exact hu, ?_⟩
  rw [hb, set_batch_id]
  intro hempty
  subst hempty
  exact absurd hu (by decide)

/-- Witness for the amended claim C3 at a concrete input: with
`batch_id=None` the stored identifier is exactly the fresh UUID drawn at
construction. -/
theorem c3_amended_witness :
    st_none_batch.batch_id = set_batch_id uuid_sample ∧
      uuid_formatted st_none_batch.batch_id = true ∧
      st_none_batch.batch_id ≠ "" :=
  c3_amended_explicit_none_batch_id Nat uuid_sample none args_none_batch
    st_none_batch rfl (by decide) rfl

/-- Claim C4, counterexample: constructing without supplying an
output-channel selector — the parameter keeps its Python default — yields
the channel `"blob_storage"`, not `"disk"`. -/
theorem c4_counterexample_default_channel :
    (lw_init uuid_sample none args_main).map (fun st => st.results_channel) =
      Except.ok "blob_storage" ∧
    "blob_storage" ≠ "disk" := by
  refine ⟨rfl, by decide⟩

/-- Claim C4, amended: the output channel is `"disk"` exactly when the
selector argument is explicitly passed as `None`; any supplied selector —
including the Python default `"blob_storage"` taken by an omitted
argument — is stored unchanged. -/
theorem c4_amended_explicit_none_channel (V : Type) (u : String)
    (c : Option String) (a : InitArgs V) (st : LWState V)
    (hok : lw_init u c a = Except.ok st) :
    (a.results_channel = none → st.results_channel = "disk") ∧
    (∀ ch, a.results_channel = some ch → st.results_channel = ch) := by
  obtain ⟨sl, hsl, hst⟩ := lw_init_ok_elim u c a st hok
  subst hst
  constructor
  · intro h
    simp [h]
  · intro ch h
    simp [h]

/-- Witness for the amended claim C4 at a concrete input: with
`results_channel=None` the stored channel is `"disk"`. -/
theorem c4_amended_witness :
    st_none_channel.results_channel = "disk" :=
  (c4_amended_explicit_none_channel Nat uuid_sample none args_none_channel
    st_none_channel rfl).1 rfl

/-- Claim C5: routing through `_upload_file_to_output_channel` — when the
configured channel is `"disk"` (and the interactor the source line reads
is present) the call delegates a disk write with the exact path given;
when the channel is any value other than `"disk"` or `"azure_blob"`, the
call raises `NotImplementedError` rather than degrading to a boolean
failure, whatever the rest of the state holds. -/
theorem c5_route_disk_exact_unknown_fatal (V : Type) (st : LWState V)
    (data_out : List (String × V)) (file_name : String) :
    (st.results_channel = "disk" → st.interactor = some () →
      upload_file_to_output_channel st data_out file_name =
        Except.ok (UploadCall.disk data_out file_name)) ∧
    (st.results_channel ≠ "disk" → st.results_channel ≠ "azure_blob" →
      upload_file_to_output_channel st data_out file_name =
        Except.error PyErr.notImplementedError) := by
  constructor
  · intro hch hint
    simp [upload_file_to_output_channel, hch, hint]
  · intro h1 h2
    simp [upload_file_to_output_channel, h1, h2]

/-- Witness for claim C5 at concrete inputs: a `"disk"` instance delegates
the exact path; an `"unknown"` instance raises `NotImplementedError`. -/
theorem c5_witness :
    upload_file_to_output_channel st_disk [("k", (1 : Nat))]
        "forecast/batch_1/segment_results/segment_results.json" =
      Except.ok (UploadCall.disk [("k", 1)]
        "forecast/batch_1/segment_results/segment_results.json") ∧
    upload_file_to_output_channel st_unknown [] "p" =
      Except.error PyErr.notImplementedError :=
  ⟨(c5_route_disk_exact_unknown_fatal Nat st_disk [("k", 1)]
      "forecast/batch_1/segment_results/segment_results.json").1 rfl rfl,
   (c5_route_disk_exact_unknown_fatal Nat st_unknown [] "p").2
      (by decide) (by decide)⟩
